import Mathlib

/-
Verification of the nvapi-rs binding layer: struct version tags, two-phase
enumeration, version fallback, and the nvenum and nvapi_fn macro expansions,
shallowly embedded from the Rust sources in src/.

Machine model: x86_64 (pointers are 8 bytes, C int is 4 bytes), matching the
repr C layout rules the sys crate relies on.
-/

namespace NvApi

/-! ## C struct layout (repr C), used by the nvversion size checks -/

/-- Round the offset up to the next multiple of the alignment a (a > 0). -/
def alignUp (off a : Nat) : Nat := ((off + a - 1) / a) * a

/-- A field is a pair of byte size and alignment. -/
abbrev CField := Nat × Nat

/-- Standard C struct layout: place each field at its aligned offset, then pad
the total size to the largest alignment.  Returns size and alignment. -/
def cLayout (fields : List CField) : Nat × Nat :=
  let step : Nat × Nat → CField → Nat × Nat :=
    fun acc f => (alignUp acc.1 f.2 + f.1, max acc.2 f.2)
  let r := fields.foldl step (0, 1)
  (alignUp r.1 r.2, r.2)

/-- Byte size of a repr C struct with the given fields. -/
def cSizeOf (fields : List CField) : Nat := (cLayout fields).1

/-- u32 / i32 field: 4 bytes, 4 aligned. -/
def fU32 : CField := (4, 4)

/-- C int field (every nvenum type alias is c_int): 4 bytes, 4 aligned. -/
def fCInt : CField := (4, 4)

/-- u8 field: 1 byte, 1 aligned. -/
def fU8 : CField := (1, 1)

/-- Pointer-sized field (opaque NVAPI handles) on x86_64: 8 bytes, 8 aligned. -/
def fPtr : CField := (8, 8)

/-- Array field of n elements, each of the given size and alignment; the
element size is already a multiple of its alignment for every array used. -/
def fArr (n : Nat) (elem : CField) : CField := (n * elem.1, elem.2)

/-- A struct nested as a field of another struct. -/
def fStruct (fields : List CField) : CField := cLayout fields

/-! ## nvversion: packed version tags

The nvversion macro emits pub const name : u32 = (sz) as u32 | (ver as u32) << 16. -/

/-- The packed tag computed by the nvversion macro: size in the low 16 bits,
version number shifted into the high bits (u32 arithmetic; all actual sizes
and versions are far below overflow). -/
def nvversion (sz ver : Nat) : Nat := (sz % 2 ^ 32) ||| ((ver <<< 16) % 2 ^ 32)

/-- GET_NVAPI_SIZE: the size encoded in a tag is its low 16 bits. -/
def tagSize (tag : Nat) : Nat := tag % 2 ^ 16

/-- Version number encoded in a tag (high 16 bits). -/
def tagVer (tag : Nat) : Nat := tag / 2 ^ 16

/-! ## Struct sizes from sys/src/gsync.rs -/

/-- NV_GSYNC_CAPABILITIES_V1: version, boardId, revision, capFlags. -/
def NV_GSYNC_CAPABILITIES_V1.fields : List CField := [fU32, fU32, fU32, fU32]

/-- Hand-written size constant in sys/src/gsync.rs: 4 * 4. -/
def NV_GSYNC_CAPABILITIES_V1_SIZE : Nat := 4 * 4

/-- NV_GSYNC_CAPABILITIES_V2: the V1 struct plus extendedRevision. -/
def NV_GSYNC_CAPABILITIES_V2.fields : List CField :=
  [fStruct NV_GSYNC_CAPABILITIES_V1.fields, fU32]

/-- Hand-written size constant in sys/src/gsync.rs: V1 size + 4. -/
def NV_GSYNC_CAPABILITIES_V2_SIZE : Nat := NV_GSYNC_CAPABILITIES_V1_SIZE + 4

/-- NV_GSYNC_DISPLAY: version, displayId, isMasterable, syncState. -/
def NV_GSYNC_DISPLAY.fields : List CField := [fU32, fU32, fU32, fCInt]

/-- NV_GSYNC_GPU: version, hPhysicalGpu, connector, hProxyPhysicalGpu, isSynced. -/
def NV_GSYNC_GPU.fields : List CField := [fU32, fPtr, fCInt, fPtr, fU32]

/-- NV_GSYNC_DELAY: version, numLines, numPixels, maxLines, minPixels. -/
def NV_GSYNC_DELAY.fields : List CField := [fU32, fU32, fU32, fU32, fU32]

/-- NV_GSYNC_CONTROL_PARAMS: 8 scalar u32 or enum fields plus two delays. -/
def NV_GSYNC_CONTROL_PARAMS.fields : List CField :=
  [fU32, fCInt, fCInt, fU32, fCInt, fU32, fU32, fU32,
   fStruct NV_GSYNC_DELAY.fields, fStruct NV_GSYNC_DELAY.fields]

/-- NV_GSYNC_STATUS: version, bIsSynced, bIsStereoSynced, bIsSyncSignalAvailable. -/
def NV_GSYNC_STATUS.fields : List CField := [fU32, fU32, fU32, fU32]

/-- NVAPI_MAX_RJ45_PER_GSYNC from sys/src/gsync.rs. -/
def NVAPI_MAX_RJ45_PER_GSYNC : Nat := 2

/-- NV_GSYNC_STATUS_PARAMS_V1: version, refreshRate, two small arrays,
houseSyncIncoming, bHouseSync. -/
def NV_GSYNC_STATUS_PARAMS_V1.fields : List CField :=
  [fU32, fU32, fArr NVAPI_MAX_RJ45_PER_GSYNC fCInt,
   fArr NVAPI_MAX_RJ45_PER_GSYNC fU32, fU32, fU32]

/-- NV_GSYNC_STATUS_PARAMS_V2: the V1 struct plus bInternalSlave and reserved. -/
def NV_GSYNC_STATUS_PARAMS_V2.fields : List CField :=
  [fStruct NV_GSYNC_STATUS_PARAMS_V1.fields, fU32, fU32]

/-! ## Struct sizes from sys/src/mosaic.rs -/

/-- NVAPI_MAX_MOSAIC_DISPLAY_ROWS. -/
def NVAPI_MAX_MOSAIC_DISPLAY_ROWS : Nat := 8

/-- NVAPI_MAX_MOSAIC_DISPLAY_COLUMNS. -/
def NVAPI_MAX_MOSAIC_DISPLAY_COLUMNS : Nat := 8

/-- NVAPI_MAX_MOSAIC_TOPOS. -/
def NVAPI_MAX_MOSAIC_TOPOS : Nat := 16

/-- NV_MOSAIC_TOPO_BRIEFS_MAX. -/
def NV_MOSAIC_TOPO_BRIEFS_MAX : Nat := 35

/-- NV_MOSAIC_DISPLAY_SETTINGS_MAX. -/
def NV_MOSAIC_DISPLAY_SETTINGS_MAX : Nat := 40

/-- NV_MOSAIC_MAX_TOPO_PER_TOPO_GROUP. -/
def NV_MOSAIC_MAX_TOPO_PER_TOPO_GROUP : Nat := 2

/-- NV_MOSAIC_MAX_DISPLAYS, fixed to 64 in sys/src/mosaic.rs. -/
def NV_MOSAIC_MAX_DISPLAYS : Nat := 64

/-- Modelled from the spec: NVAPI_MAX_DISPLAYS lives in the sys crate's
types module, which is not under src/; the spec's design notes describe it as
possibly larger than 64, for example 128, so the model fixes it at 128.  The
theorems below do not depend on its exact value staying under 4094. -/
def NVAPI_MAX_DISPLAYS : Nat := 128

/-- NV_MOSAIC_GPU_LAYOUT_ELEM: hPhysicalGPU, displayOutputId, overlapX, overlapY. -/
def NV_MOSAIC_GPU_LAYOUT_ELEM.fields : List CField := [fPtr, fU32, fU32, fU32]

/-- NV_MOSAIC_TOPO_BRIEF: version, topo, enabled, isPossible. -/
def NV_MOSAIC_TOPO_BRIEF.fields : List CField := [fU32, fCInt, fU32, fU32]

/-- NV_MOSAIC_TOPO_DETAILS: version, hLogicalGPU, validityMask, rowCount,
colCount, and the 8 x 8 gpuLayout array. -/
def NV_MOSAIC_TOPO_DETAILS.fields : List CField :=
  [fU32, fPtr, fU32, fU32, fU32,
   fArr (NVAPI_MAX_MOSAIC_DISPLAY_ROWS * NVAPI_MAX_MOSAIC_DISPLAY_COLUMNS)
     (fStruct NV_MOSAIC_GPU_LAYOUT_ELEM.fields)]

/-- NV_MOSAIC_DISPLAY_SETTING_V1: version, width, height, bpp, freq. -/
def NV_MOSAIC_DISPLAY_SETTING_V1.fields : List CField := [fU32, fU32, fU32, fU32, fU32]

/-- NV_MOSAIC_DISPLAY_SETTING_V2: V1 fields plus rrx1k. -/
def NV_MOSAIC_DISPLAY_SETTING_V2.fields : List CField :=
  [fU32, fU32, fU32, fU32, fU32, fU32]

/-- NV_MOSAIC_SUPPORTED_TOPO_INFO_V1: counts plus brief and V1 setting arrays. -/
def NV_MOSAIC_SUPPORTED_TOPO_INFO_V1.fields : List CField :=
  [fU32, fU32, fArr NV_MOSAIC_TOPO_BRIEFS_MAX (fStruct NV_MOSAIC_TOPO_BRIEF.fields),
   fU32, fArr NV_MOSAIC_DISPLAY_SETTINGS_MAX (fStruct NV_MOSAIC_DISPLAY_SETTING_V1.fields)]

/-- NV_MOSAIC_SUPPORTED_TOPO_INFO_V2: counts plus brief and V2 setting arrays. -/
def NV_MOSAIC_SUPPORTED_TOPO_INFO_V2.fields : List CField :=
  [fU32, fU32, fArr NV_MOSAIC_TOPO_BRIEFS_MAX (fStruct NV_MOSAIC_TOPO_BRIEF.fields),
   fU32, fArr NV_MOSAIC_DISPLAY_SETTINGS_MAX (fStruct NV_MOSAIC_DISPLAY_SETTING_V2.fields)]

/-- NV_MOSAIC_TOPO_GROUP: version, brief, count, two topo details. -/
def NV_MOSAIC_TOPO_GROUP.fields : List CField :=
  [fU32, fStruct NV_MOSAIC_TOPO_BRIEF.fields, fU32,
   fArr NV_MOSAIC_MAX_TOPO_PER_TOPO_GROUP (fStruct NV_MOSAIC_TOPO_DETAILS.fields)]

/-- NV_MOSAIC_DISPLAY_TOPO_STATUS_DISPLAY: displayId, errorFlags, warningFlags,
supportsRotation. -/
def NV_MOSAIC_DISPLAY_TOPO_STATUS_DISPLAY.fields : List CField :=
  [fU32, fU32, fU32, fU32]

/-- NV_MOSAIC_DISPLAY_TOPO_STATUS: version, errorFlags, warningFlags,
displayCount, and the per-display status array. -/
def NV_MOSAIC_DISPLAY_TOPO_STATUS.fields : List CField :=
  [fU32, fU32, fU32, fU32,
   fArr NVAPI_MAX_DISPLAYS (fStruct NV_MOSAIC_DISPLAY_TOPO_STATUS_DISPLAY.fields)]

/-- NV_MOSAIC_TOPOLOGY: version, rowCount, colCount, gpuLayout. -/
def NV_MOSAIC_TOPOLOGY.fields : List CField :=
  [fU32, fU32, fU32,
   fArr (NVAPI_MAX_MOSAIC_DISPLAY_ROWS * NVAPI_MAX_MOSAIC_DISPLAY_COLUMNS)
     (fStruct NV_MOSAIC_GPU_LAYOUT_ELEM.fields)]

/-- NV_MOSAIC_SUPPORTED_TOPOLOGIES: version, totalCount, topologies array. -/
def NV_MOSAIC_SUPPORTED_TOPOLOGIES.fields : List CField :=
  [fU32, fU32, fArr NVAPI_MAX_MOSAIC_TOPOS (fStruct NV_MOSAIC_TOPOLOGY.fields)]

/-- NV_MOSAIC_GRID_TOPO_DISPLAY_V1: displayId, overlapX, overlapY, rotation,
cloneGroup. -/
def NV_MOSAIC_GRID_TOPO_DISPLAY_V1.fields : List CField :=
  [fU32, fU32, fU32, fCInt, fU32]

/-- NV_MOSAIC_GRID_TOPO_DISPLAY_V2: version, displayId, overlapX, overlapY,
rotation, cloneGroup, pixelShiftType. -/
def NV_MOSAIC_GRID_TOPO_DISPLAY_V2.fields : List CField :=
  [fU32, fU32, fU32, fU32, fCInt, fU32, fCInt]

/-- NV_MOSAIC_GRID_TOPO_V1: scalar header, 64 V1 display entries, V1 settings. -/
def NV_MOSAIC_GRID_TOPO_V1.fields : List CField :=
  [fU32, fU32, fU32, fU32, fU32,
   fArr NV_MOSAIC_MAX_DISPLAYS (fStruct NV_MOSAIC_GRID_TOPO_DISPLAY_V1.fields),
   fStruct NV_MOSAIC_DISPLAY_SETTING_V1.fields]

/-- NV_MOSAIC_GRID_TOPO_V2: scalar header, 64 V2 display entries, V1 settings. -/
def NV_MOSAIC_GRID_TOPO_V2.fields : List CField :=
  [fU32, fU32, fU32, fU32, fU32,
   fArr NV_MOSAIC_MAX_DISPLAYS (fStruct NV_MOSAIC_GRID_TOPO_DISPLAY_V2.fields),
   fStruct NV_MOSAIC_DISPLAY_SETTING_V1.fields]

/-! ## Struct sizes from sys/src/gpu/thermal.rs -/

/-- NVAPI_MAX_THERMAL_SENSORS_PER_GPU. -/
def NVAPI_MAX_THERMAL_SENSORS_PER_GPU : Nat := 3

/-- NV_GPU_THERMAL_SETTINGS_SENSOR: controller, defaultMinTemp, defaultMaxTemp,
currentTemp, target. -/
def NV_GPU_THERMAL_SETTINGS_SENSOR.fields : List CField :=
  [fCInt, fU32, fU32, fU32, fCInt]

/-- NV_GPU_THERMAL_SETTINGS_V1: version, count, sensor array. -/
def NV_GPU_THERMAL_SETTINGS_V1.fields : List CField :=
  [fU32, fU32,
   fArr NVAPI_MAX_THERMAL_SENSORS_PER_GPU (fStruct NV_GPU_THERMAL_SETTINGS_SENSOR.fields)]

/-- Hand-written size constant in sys/src/gpu/thermal.rs. -/
def NV_GPU_THERMAL_SETTINGS_V1_SIZE : Nat :=
  4 * 2 + (4 * 5) * NVAPI_MAX_THERMAL_SENSORS_PER_GPU

/-- NVAPI_MAX_THERMAL_INFO_ENTRIES (private module). -/
def NVAPI_MAX_THERMAL_INFO_ENTRIES : Nat := 4

/-- NV_GPU_THERMAL_INFO_ENTRY: controller, unknown, minTemp, defaultTemp,
maxTemp, defaultFlags. -/
def NV_GPU_THERMAL_INFO_ENTRY.fields : List CField :=
  [fCInt, fU32, fU32, fU32, fU32, fU32]

/-- Hand-written entry size constant. -/
def NV_GPU_THERMAL_INFO_ENTRY_SIZE : Nat := 4 * 6

/-- NV_GPU_THERMAL_INFO_V2: version, count u8, flags u8, 2 padding bytes,
entries array. -/
def NV_GPU_THERMAL_INFO_V2.fields : List CField :=
  [fU32, fU8, fU8, fArr 2 fU8,
   fArr NVAPI_MAX_THERMAL_INFO_ENTRIES (fStruct NV_GPU_THERMAL_INFO_ENTRY.fields)]

/-- Hand-written size constant. -/
def NV_GPU_THERMAL_INFO_V2_SIZE : Nat :=
  4 * 2 + NV_GPU_THERMAL_INFO_ENTRY_SIZE * NVAPI_MAX_THERMAL_INFO_ENTRIES

/-- NVAPI_MAX_THERMAL_LIMIT_ENTRIES (private module). -/
def NVAPI_MAX_THERMAL_LIMIT_ENTRIES : Nat := 4

/-- NV_GPU_CLIENT_THERMAL_POLICIES_STATUS_ENTRY: controller, value, flags. -/
def NV_GPU_CLIENT_THERMAL_POLICIES_STATUS_ENTRY.fields : List CField :=
  [fCInt, fU32, fU32]

/-- Hand-written entry size constant. -/
def NV_GPU_CLIENT_THERMAL_POLICIES_STATUS_ENTRY_SIZE : Nat := 4 * 3

/-- NV_GPU_CLIENT_THERMAL_POLICIES_STATUS_V2: version, flags, entries array. -/
def NV_GPU_CLIENT_THERMAL_POLICIES_STATUS_V2.fields : List CField :=
  [fU32, fU32,
   fArr NVAPI_MAX_THERMAL_LIMIT_ENTRIES
     (fStruct NV_GPU_CLIENT_THERMAL_POLICIES_STATUS_ENTRY.fields)]

/-- Hand-written size constant. -/
def NV_GPU_CLIENT_THERMAL_POLICIES_STATUS_V2_SIZE : Nat :=
  4 * 2 + NV_GPU_CLIENT_THERMAL_POLICIES_STATUS_ENTRY_SIZE * NVAPI_MAX_THERMAL_LIMIT_ENTRIES

/-! ## The declared nvversion pairs

Each entry records the struct kind and version as declared in the sources:
the size expression handed to the nvversion macro, the version number, and the
field list of the struct variant it tags (for the in-memory size).  Entries
whose size expression is written with std mem size_of reuse the layout size
directly, exactly as the source does. -/

/-- One nvversion declaration: the tag value and the tagged struct's fields. -/
structure VersionDecl where
  declaredSize : Nat
  versionNumber : Nat
  structFields : List CField
  deriving DecidableEq, Repr

/-- The packed tag a declaration produces. -/
def VersionDecl.tag (d : VersionDecl) : Nat := nvversion d.declaredSize d.versionNumber

/-- The in-memory size of the struct variant a declaration tags. -/
def VersionDecl.memSize (d : VersionDecl) : Nat := cSizeOf d.structFields

/-- All nvversion declarations of the form name(struct = size, ver) in
sys/src/gsync.rs, sys/src/mosaic.rs and sys/src/gpu/thermal.rs, in source
order.  Alias declarations of the form name = target introduce no new pair. -/
def nvversionDecls : List VersionDecl :=
  [ -- gsync.rs
    ⟨NV_GSYNC_CAPABILITIES_V1_SIZE, 1, NV_GSYNC_CAPABILITIES_V1.fields⟩,
    ⟨NV_GSYNC_CAPABILITIES_V2_SIZE, 2, NV_GSYNC_CAPABILITIES_V2.fields⟩,
    ⟨cSizeOf NV_GSYNC_DISPLAY.fields, 1, NV_GSYNC_DISPLAY.fields⟩,
    ⟨cSizeOf NV_GSYNC_GPU.fields, 1, NV_GSYNC_GPU.fields⟩,
    ⟨cSizeOf NV_GSYNC_DELAY.fields, 1, NV_GSYNC_DELAY.fields⟩,
    ⟨cSizeOf NV_GSYNC_CONTROL_PARAMS.fields, 1, NV_GSYNC_CONTROL_PARAMS.fields⟩,
    ⟨cSizeOf NV_GSYNC_STATUS.fields, 1, NV_GSYNC_STATUS.fields⟩,
    ⟨cSizeOf NV_GSYNC_STATUS_PARAMS_V1.fields, 1, NV_GSYNC_STATUS_PARAMS_V1.fields⟩,
    ⟨cSizeOf NV_GSYNC_STATUS_PARAMS_V2.fields, 2, NV_GSYNC_STATUS_PARAMS_V2.fields⟩,
    -- mosaic.rs
    ⟨cSizeOf NV_MOSAIC_TOPO_BRIEF.fields, 1, NV_MOSAIC_TOPO_BRIEF.fields⟩,
    ⟨cSizeOf NV_MOSAIC_TOPO_DETAILS.fields, 1, NV_MOSAIC_TOPO_DETAILS.fields⟩,
    ⟨cSizeOf NV_MOSAIC_DISPLAY_SETTING_V1.fields, 1, NV_MOSAIC_DISPLAY_SETTING_V1.fields⟩,
    ⟨cSizeOf NV_MOSAIC_DISPLAY_SETTING_V2.fields, 2, NV_MOSAIC_DISPLAY_SETTING_V2.fields⟩,
    ⟨cSizeOf NV_MOSAIC_SUPPORTED_TOPO_INFO_V1.fields, 1, NV_MOSAIC_SUPPORTED_TOPO_INFO_V1.fields⟩,
    ⟨cSizeOf NV_MOSAIC_SUPPORTED_TOPO_INFO_V2.fields, 2, NV_MOSAIC_SUPPORTED_TOPO_INFO_V2.fields⟩,
    ⟨cSizeOf NV_MOSAIC_TOPO_GROUP.fields, 1, NV_MOSAIC_TOPO_GROUP.fields⟩,
    ⟨cSizeOf NV_MOSAIC_DISPLAY_TOPO_STATUS.fields, 1, NV_MOSAIC_DISPLAY_TOPO_STATUS.fields⟩,
    ⟨cSizeOf NV_MOSAIC_TOPOLOGY.fields, 1, NV_MOSAIC_TOPOLOGY.fields⟩,
    ⟨cSizeOf NV_MOSAIC_SUPPORTED_TOPOLOGIES.fields, 1, NV_MOSAIC_SUPPORTED_TOPOLOGIES.fields⟩,
    ⟨cSizeOf NV_MOSAIC_GRID_TOPO_V1.fields, 1, NV_MOSAIC_GRID_TOPO_V1.fields⟩,
    ⟨cSizeOf NV_MOSAIC_GRID_TOPO_V2.fields, 2, NV_MOSAIC_GRID_TOPO_V2.fields⟩,
    -- gpu/thermal.rs (V2 of the settings struct is a type alias of V1)
    ⟨NV_GPU_THERMAL_SETTINGS_V1_SIZE, 1, NV_GPU_THERMAL_SETTINGS_V1.fields⟩,
    ⟨NV_GPU_THERMAL_SETTINGS_V1_SIZE, 2, NV_GPU_THERMAL_SETTINGS_V1.fields⟩,
    ⟨NV_GPU_THERMAL_INFO_V2_SIZE, 2, NV_GPU_THERMAL_INFO_V2.fields⟩,
    ⟨NV_GPU_CLIENT_THERMAL_POLICIES_STATUS_V2_SIZE, 2,
      NV_GPU_CLIENT_THERMAL_POLICIES_STATUS_V2.fields⟩ ]

/-! ## Version tag constants used by the wrapper crate -/

/-- NV_GSYNC_DISPLAY_VER. -/
def NV_GSYNC_DISPLAY_VER : Nat := nvversion (cSizeOf NV_GSYNC_DISPLAY.fields) 1

/-- NV_GSYNC_GPU_VER. -/
def NV_GSYNC_GPU_VER : Nat := nvversion (cSizeOf NV_GSYNC_GPU.fields) 1

/-- NV_GSYNC_DELAY_VER. -/
def NV_GSYNC_DELAY_VER : Nat := nvversion (cSizeOf NV_GSYNC_DELAY.fields) 1

/-- NV_GSYNC_STATUS_PARAMS_VER_1. -/
def NV_GSYNC_STATUS_PARAMS_VER_1 : Nat :=
  nvversion (cSizeOf NV_GSYNC_STATUS_PARAMS_V1.fields) 1

/-- NV_GSYNC_STATUS_PARAMS_VER_2. -/
def NV_GSYNC_STATUS_PARAMS_VER_2 : Nat :=
  nvversion (cSizeOf NV_GSYNC_STATUS_PARAMS_V2.fields) 2

/-- NV_GSYNC_STATUS_PARAMS_VER aliases VER_1: the source deliberately defaults
to V1 for broader hardware compatibility. -/
def NV_GSYNC_STATUS_PARAMS_VER : Nat := NV_GSYNC_STATUS_PARAMS_VER_1

/-- NV_MOSAIC_GRID_TOPO_VER1. -/
def NV_MOSAIC_GRID_TOPO_VER1 : Nat := nvversion (cSizeOf NV_MOSAIC_GRID_TOPO_V1.fields) 1

/-- NV_MOSAIC_GRID_TOPO_VER2. -/
def NV_MOSAIC_GRID_TOPO_VER2 : Nat := nvversion (cSizeOf NV_MOSAIC_GRID_TOPO_V2.fields) 2

/-- NV_MOSAIC_GRID_TOPO_VER aliases VER2. -/
def NV_MOSAIC_GRID_TOPO_VER : Nat := NV_MOSAIC_GRID_TOPO_VER2

/-! ## Status codes and translation

Modelled from the spec: the status module is not under src/ (only its users
are).  Spec 4.4 and 7: zero maps to success, every known negative value maps
to one named error kind, and unknown codes retain the raw value. -/

/-- Typed status taxonomy.  Modelled from the spec: the status module is not
under src/; the named kinds follow spec sections 4.4 and 7, and the façade
sources in src/ match on the IncompatibleStructVersion variant by name. -/
inductive Status where
  | ok
  | incompatibleStructVersion
  | notSupported
  | deviceNotFound
  | insufficientBuffer
  | invalidArgument
  | handleInvalidated
  | unknown (code : Int)
  deriving DecidableEq, Repr

/-- Raw driver code of a status.  Modelled from the spec: zero means success
and each named error kind carries one fixed negative vendor code. -/
def Status.raw : Status → Int
  | .ok => 0
  | .incompatibleStructVersion => -9
  | .notSupported => -104
  | .deviceNotFound => -6
  | .insufficientBuffer => -8
  | .invalidArgument => -5
  | .handleInvalidated => -13
  | .unknown code => code

/-- status_result: success becomes ok, anything else becomes the typed error.
Modelled from the spec: translate(code) maps zero to success and every other
value to its error kind. -/
def statusResult (s : Status) : Except Status Unit :=
  if s = .ok then .ok () else .error s

/-! ## Buffer cells

A fill call writes driver data into a caller-allocated buffer; Vec set_len
then forces the length to the driver-reported count.  A cell below the
allocated capacity holds the value the driver wrote; a cell at or beyond the
capacity is memory outside the allocation, exposed only when set_len is
called with a count larger than the capacity. -/

/-- One element of an enumeration result: either a value the driver wrote
inside the allocation, or memory beyond the allocated buffer. -/
inductive Cell (α : Type) where
  | valid (a : α)
  | oob
  deriving DecidableEq, Repr

/-- Map over the payload of a cell; reading beyond the buffer stays beyond. -/
def Cell.map {α β : Type} (f : α → β) : Cell α → Cell β
  | .valid a => .valid (f a)
  | .oob => .oob

/-- Buffer contents after a fill call into a buffer of capacity cap followed
by set_len to the driver-reported count fillN: the driver wrote entries below
the capacity; indices past the capacity expose out-of-bounds memory. -/
def fillResult {α : Type} (cap fillN : Nat) (data : Nat → α) : List (Cell α) :=
  (List.range fillN).map fun i => if i < cap then .valid (data i) else .oob

/-! ## G-SYNC value structs from sys/src/gsync.rs

Opaque handles are pointer-sized tokens; the model carries them as Nat with
zero as the null sentinel. -/

/-- NV_GSYNC_DISPLAY values: version, displayId, isMasterable bit-field word,
syncState. -/
structure NV_GSYNC_DISPLAY where
  version : Nat
  displayId : Nat
  isMasterable : Nat
  syncState : Int
  deriving DecidableEq, Repr

/-- The zeroed() constructor emitted by nvstruct. -/
def NV_GSYNC_DISPLAY.zeroed : NV_GSYNC_DISPLAY := ⟨0, 0, 0, 0⟩

/-- NV_GSYNC_GPU values: version, physical handle, connector, proxy handle,
isSynced bit-field word. -/
structure NV_GSYNC_GPU where
  version : Nat
  hPhysicalGpu : Nat
  connector : Int
  hProxyPhysicalGpu : Nat
  isSynced : Nat
  deriving DecidableEq, Repr

/-- The zeroed() constructor emitted by nvstruct. -/
def NV_GSYNC_GPU.zeroed : NV_GSYNC_GPU := ⟨0, 0, 0, 0, 0⟩

/-- NV_GSYNC_DELAY values: version, numLines, numPixels, maxLines, minPixels. -/
structure NV_GSYNC_DELAY where
  version : Nat
  numLines : Nat
  numPixels : Nat
  maxLines : Nat
  minPixels : Nat
  deriving DecidableEq, Repr

/-- The zeroed() constructor emitted by nvstruct. -/
def NV_GSYNC_DELAY.zeroed : NV_GSYNC_DELAY := ⟨0, 0, 0, 0, 0⟩

/-- NV_GSYNC_STATUS_PARAMS_V1 values; the two fixed arrays of length two are
carried as pairs. -/
structure NV_GSYNC_STATUS_PARAMS_V1 where
  version : Nat
  refreshRate : Nat
  RJ45_IO : Int × Int
  RJ45_Ethernet : Nat × Nat
  houseSyncIncoming : Nat
  bHouseSync : Nat
  deriving DecidableEq, Repr

/-- The zeroed() constructor emitted by nvstruct. -/
def NV_GSYNC_STATUS_PARAMS_V1.zeroed : NV_GSYNC_STATUS_PARAMS_V1 :=
  ⟨0, 0, (0, 0), (0, 0), 0, 0⟩

/-- DisplaySyncState, the Rust-side enum generated by nvenum for
NVAPI_GSYNC_DISPLAY_SYNC_STATE. -/
inductive DisplaySyncState where
  | Unsynced
  | Slave
  | Master
  deriving DecidableEq, Repr

/-- Raw discriminants 0, 1, 2 as declared in sys/src/gsync.rs. -/
def DisplaySyncState.raw : DisplaySyncState → Int
  | .Unsynced => 0
  | .Slave => 1
  | .Master => 2

/-! ## GSyncDevice::get_topology from src/src/gsync.rs

The driver oracle fixes, for one run, the status and counts of the count-only
call, the status and counts of the fill call, and the entries the driver
writes during the fill call.  The trace lists the foreign calls made. -/

/-- Which NvAPI_GSync_GetTopology invocation was made: the count-only call
with null buffers, or the fill call with the allocated buffers. -/
inductive GSyncCall where
  | countCall
  | fillCall
  deriving DecidableEq, Repr

/-- Driver behaviour for one run of get_topology. -/
structure GSyncTopoDriver where
  countStatus : Status
  countGpus : Nat
  countDisplays : Nat
  fillStatus : Status
  fillGpus : Nat
  fillDisplays : Nat
  gpuData : Nat → NV_GSYNC_GPU
  displayData : Nat → NV_GSYNC_DISPLAY

/-- Pre-tagged GPU entry pushed into the buffer before the fill call:
zeroed with version set to NV_GSYNC_GPU_VER. -/
def gsyncGpuPretag : NV_GSYNC_GPU :=
  { NV_GSYNC_GPU.zeroed with version := NV_GSYNC_GPU_VER }

/-- Pre-tagged display entry pushed into the buffer before the fill call:
zeroed with version set to NV_GSYNC_DISPLAY_VER. -/
def gsyncDisplayPretag : NV_GSYNC_DISPLAY :=
  { NV_GSYNC_DISPLAY.zeroed with version := NV_GSYNC_DISPLAY_VER }

/-- The GPU buffer handed to the fill call: countGpus pre-tagged entries. -/
def gsyncGpuBuffer (n : Nat) : List NV_GSYNC_GPU := List.replicate n gsyncGpuPretag

/-- The display buffer handed to the fill call: countDisplays pre-tagged
entries. -/
def gsyncDisplayBuffer (n : Nat) : List NV_GSYNC_DISPLAY :=
  List.replicate n gsyncDisplayPretag

/-- GSyncDevice::get_topology: count-only call, allocation of pre-tagged
buffers, unconditional fill call, then set_len on both vectors with the
driver-reported counts.  No retry logic exists in the source. -/
def get_topology (d : GSyncTopoDriver) :
    Except Status (List (Cell NV_GSYNC_GPU) × List (Cell NV_GSYNC_DISPLAY))
      × List GSyncCall :=
  match statusResult d.countStatus with
  | .error e => (.error e, [.countCall])
  | .ok _ =>
    match statusResult d.fillStatus with
    | .error e => (.error e, [.countCall, .fillCall])
    | .ok _ =>
      (.ok (fillResult d.countGpus d.fillGpus d.gpuData,
            fillResult d.countDisplays d.fillDisplays d.displayData),
       [.countCall, .fillCall])

/-! ## GSyncDevice::enum_sync_devices from src/src/gsync.rs -/

/-- NVAPI_MAX_GSYNC_DEVICES.  Modelled from the spec: the constant lives in
the sys crate's types module, which is not under src/; the spec only requires
a fixed maximum number of synchronization devices, and the vendor header
fixes it at 4. -/
def NVAPI_MAX_GSYNC_DEVICES : Nat := 4

/-- Driver behaviour for one NvAPI_GSync_EnumSyncDevices call: a status, the
count written into len, and the handles written into the fixed array. -/
structure EnumSyncDriver where
  status : Status
  len : Nat
  handleData : Nat → Nat

/-- GSyncDevice::enum_sync_devices: a single call with a fixed-size handle
array and a zero-initialised length; on success the first len handles are
returned.  The none result marks the slice-index panic that a reported
length beyond the fixed array would cause. -/
def enum_sync_devices (d : EnumSyncDriver) : Option (Except Status (List Nat)) :=
  match statusResult d.status with
  | .error e => some (.error e)
  | .ok _ =>
    if d.len ≤ NVAPI_MAX_GSYNC_DEVICES then
      some (.ok ((List.range d.len).map d.handleData))
    else none

/-! ## Sync-state setters from src/src/gsync.rs -/

/-- Entry built by set_sync_state_settings for one (displayId, state) pair:
zeroed, then version, displayId and syncState assigned.  The isMasterable
word is never assigned. -/
def set_sync_state_settings_entry (displayId : Nat) (state : DisplaySyncState) :
    NV_GSYNC_DISPLAY :=
  { NV_GSYNC_DISPLAY.zeroed with
      version := NV_GSYNC_DISPLAY_VER
      displayId := displayId
      syncState := state.raw }

/-- The per-entry fixup set_sync_state_settings_raw applies before the
foreign call: a zero version is replaced with the declared tag, any other
version is left alone. -/
def set_sync_state_settings_raw_fixup (dsp : NV_GSYNC_DISPLAY) : NV_GSYNC_DISPLAY :=
  if dsp.version = 0 then { dsp with version := NV_GSYNC_DISPLAY_VER } else dsp

/-- The display array set_sync_state_settings hands to
NvAPI_GSync_SetSyncStateSettings. -/
def set_sync_state_settings_sent (displays : List (Nat × DisplaySyncState)) :
    List NV_GSYNC_DISPLAY :=
  (displays.map fun p => set_sync_state_settings_entry p.1 p.2).map
    set_sync_state_settings_raw_fixup

/-- Entry built by set_sync_state_settings_from_topology for one
driver-reported topology display: zeroed, then version, displayId and
syncState copied; no other field of the source entry is copied. -/
def set_sync_state_settings_from_topology_entry (d : NV_GSYNC_DISPLAY) :
    NV_GSYNC_DISPLAY :=
  { NV_GSYNC_DISPLAY.zeroed with
      version := NV_GSYNC_DISPLAY_VER
      displayId := d.displayId
      syncState := d.syncState }

/-- The display array set_sync_state_settings_from_topology hands to
NvAPI_GSync_SetSyncStateSettings. -/
def set_sync_state_settings_from_topology_sent (displays : List NV_GSYNC_DISPLAY) :
    List NV_GSYNC_DISPLAY :=
  (displays.map set_sync_state_settings_from_topology_entry).map
    set_sync_state_settings_raw_fixup

/-! ## GSyncDevice::adjust_sync_delay from src/src/gsync.rs -/

/-- Driver behaviour for one NvAPI_GSync_AdjustSyncDelay call. -/
structure AdjustDelayDriver where
  status : Status
  steps : Nat

/-- The NV_GSYNC_DELAY struct adjust_sync_delay hands to the foreign call:
exactly the caller's struct, with no field assigned beforehand. -/
def adjust_sync_delay_sent (delay : NV_GSYNC_DELAY) : NV_GSYNC_DELAY := delay

/-- GSyncDevice::adjust_sync_delay: a single foreign call whose delay
argument is passed through unchanged; on success the step count is returned. -/
def adjust_sync_delay (drv : AdjustDelayDriver) (delay : NV_GSYNC_DELAY) :
    Except Status (Option Nat) × NV_GSYNC_DELAY :=
  (match statusResult drv.status with
   | .error e => .error e
   | .ok _ => .ok (some drv.steps),
   adjust_sync_delay_sent delay)

/-! ## GSyncDevice::get_status_parameters from src/src/gsync.rs -/

/-- Driver behaviour for one NvAPI_GSync_GetStatusParameters call. -/
structure StatusParamsDriver where
  status : Status
  outParams : NV_GSYNC_STATUS_PARAMS_V1

/-- GSyncDevice::get_status_parameters: one foreign call with a zeroed V1
struct whose version field is NV_GSYNC_STATUS_PARAMS_VER (the V1 tag); the
trace records the version tag of each buffer sent.  Any error status is
surfaced unchanged; no second call with another version is ever made. -/
def get_status_parameters (d : StatusParamsDriver) :
    Except Status NV_GSYNC_STATUS_PARAMS_V1 × List Nat :=
  (match statusResult d.status with
   | .error e => .error e
   | .ok _ => .ok d.outParams,
   [NV_GSYNC_STATUS_PARAMS_VER])

/-! ## Mosaic value structs from sys/src/mosaic.rs -/

/-- NV_MOSAIC_DISPLAY_SETTING_V1 values: version, width, height, bpp, freq. -/
structure NV_MOSAIC_DISPLAY_SETTING_V1 where
  version : Nat
  width : Nat
  height : Nat
  bpp : Nat
  freq : Nat
  deriving DecidableEq, Repr

/-- The zeroed() constructor emitted by nvstruct. -/
def NV_MOSAIC_DISPLAY_SETTING_V1.zeroed : NV_MOSAIC_DISPLAY_SETTING_V1 :=
  ⟨0, 0, 0, 0, 0⟩

/-- NV_MOSAIC_GRID_TOPO_DISPLAY_V1 values: displayId, overlapX, overlapY,
rotation, cloneGroup.  There is no version field in V1. -/
structure NV_MOSAIC_GRID_TOPO_DISPLAY_V1 where
  displayId : Nat
  overlapX : Int
  overlapY : Int
  rotation : Int
  cloneGroup : Nat
  deriving DecidableEq, Repr

/-- The zeroed() constructor emitted by nvstruct. -/
def NV_MOSAIC_GRID_TOPO_DISPLAY_V1.zeroed : NV_MOSAIC_GRID_TOPO_DISPLAY_V1 :=
  ⟨0, 0, 0, 0, 0⟩

/-- NV_MOSAIC_GRID_TOPO_DISPLAY_V2 values: version, displayId, overlapX,
overlapY, rotation, cloneGroup, pixelShiftType. -/
structure NV_MOSAIC_GRID_TOPO_DISPLAY_V2 where
  version : Nat
  displayId : Nat
  overlapX : Int
  overlapY : Int
  rotation : Int
  cloneGroup : Nat
  pixelShiftType : Int
  deriving DecidableEq, Repr

/-- The zeroed() constructor emitted by nvstruct. -/
def NV_MOSAIC_GRID_TOPO_DISPLAY_V2.zeroed : NV_MOSAIC_GRID_TOPO_DISPLAY_V2 :=
  ⟨0, 0, 0, 0, 0, 0, 0⟩

/-- PixelShiftType, generated by nvenum for NV_PIXEL_SHIFT_TYPE. -/
inductive PixelShiftType where
  | NoPixelShift
  | TwoByTwoTopLeft
  | TwoByTwoBottomRight
  | TwoByTwoTopRight
  | TwoByTwoBottomLeft
  deriving DecidableEq, Repr

/-- Raw discriminants 0, 1, 2, 4, 8 as declared in sys/src/mosaic.rs. -/
def PixelShiftType.raw : PixelShiftType → Int
  | .NoPixelShift => 0
  | .TwoByTwoTopLeft => 1
  | .TwoByTwoBottomRight => 2
  | .TwoByTwoTopRight => 4
  | .TwoByTwoBottomLeft => 8

/-- NV_MOSAIC_GRID_TOPO_V1 values; the 64-slot display array is a function
on Fin NV_MOSAIC_MAX_DISPLAYS. -/
structure NV_MOSAIC_GRID_TOPO_V1 where
  version : Nat
  rows : Nat
  columns : Nat
  displayCount : Nat
  gridFlags : Nat
  displays : Fin NV_MOSAIC_MAX_DISPLAYS → NV_MOSAIC_GRID_TOPO_DISPLAY_V1
  displaySettings : NV_MOSAIC_DISPLAY_SETTING_V1

/-- The zeroed() constructor emitted by nvstruct. -/
def NV_MOSAIC_GRID_TOPO_V1.zeroed : NV_MOSAIC_GRID_TOPO_V1 :=
  ⟨0, 0, 0, 0, 0, fun _ => NV_MOSAIC_GRID_TOPO_DISPLAY_V1.zeroed,
   NV_MOSAIC_DISPLAY_SETTING_V1.zeroed⟩

/-- NV_MOSAIC_GRID_TOPO_V2 values; displaySettings stays the V1 setting
struct, exactly as in the source. -/
structure NV_MOSAIC_GRID_TOPO_V2 where
  version : Nat
  rows : Nat
  columns : Nat
  displayCount : Nat
  gridFlags : Nat
  displays : Fin NV_MOSAIC_MAX_DISPLAYS → NV_MOSAIC_GRID_TOPO_DISPLAY_V2
  displaySettings : NV_MOSAIC_DISPLAY_SETTING_V1

/-- The zeroed() constructor emitted by nvstruct. -/
def NV_MOSAIC_GRID_TOPO_V2.zeroed : NV_MOSAIC_GRID_TOPO_V2 :=
  ⟨0, 0, 0, 0, 0, fun _ => NV_MOSAIC_GRID_TOPO_DISPLAY_V2.zeroed,
   NV_MOSAIC_DISPLAY_SETTING_V1.zeroed⟩

/-! ## Mosaic::enum_display_grids from src/src/mosaic.rs -/

/-- The V1-to-V2 upgrade performed on the fallback path of
enum_display_grids_v1: a zeroed V2 grid receives the V2 tag, the copied
header fields and settings, and each of the 64 display slots is converted
with version 2 and pixelShiftType NoPixelShift. -/
def convertGridV1toV2 (g : NV_MOSAIC_GRID_TOPO_V1) : NV_MOSAIC_GRID_TOPO_V2 :=
  { version := NV_MOSAIC_GRID_TOPO_VER2
    rows := g.rows
    columns := g.columns
    displayCount := g.displayCount
    gridFlags := g.gridFlags
    displays := fun i =>
      { version := 2
        displayId := (g.displays i).displayId
        overlapX := (g.displays i).overlapX
        overlapY := (g.displays i).overlapY
        rotation := (g.displays i).rotation
        cloneGroup := (g.displays i).cloneGroup
        pixelShiftType := PixelShiftType.NoPixelShift.raw }
    displaySettings := g.displaySettings }

/-- Which NvAPI_Mosaic_EnumDisplayGrids invocation was made: the count-only
call with a null buffer, or a fill call with a V2- or V1-tagged buffer. -/
inductive MosaicCall where
  | countCall
  | fillCallV2
  | fillCallV1
  deriving DecidableEq, Repr

/-- Driver behaviour for one run of enum_display_grids.  The count-only call
carries no version, so it behaves the same under both helpers; a fill call
answers according to the version tags of the buffer it receives. -/
structure MosaicEnumDriver where
  countStatus : Status
  count : Nat
  fillStatusV2 : Status
  fillCountV2 : Nat
  fillDataV2 : Nat → NV_MOSAIC_GRID_TOPO_V2
  fillStatusV1 : Status
  fillCountV1 : Nat
  fillDataV1 : Nat → NV_MOSAIC_GRID_TOPO_V1

/-- Mosaic::enum_display_grids_v2: count-only call; zero count returns an
empty vector with no fill call; otherwise a V2-tagged buffer of the counted
capacity is allocated and filled, and set_len uses the driver-reported fill
count.  No retry logic exists in the source. -/
def enum_display_grids_v2 (d : MosaicEnumDriver) :
    Except Status (List (Cell NV_MOSAIC_GRID_TOPO_V2)) × List MosaicCall :=
  match statusResult d.countStatus with
  | .error e => (.error e, [.countCall])
  | .ok _ =>
    if d.count = 0 then (.ok [], [.countCall])
    else
      match statusResult d.fillStatusV2 with
      | .error e => (.error e, [.countCall, .fillCallV2])
      | .ok _ =>
        (.ok (fillResult d.count d.fillCountV2 d.fillDataV2),
         [.countCall, .fillCallV2])

/-- Mosaic::enum_display_grids_v1: same shape as the V2 helper but with a
V1-tagged buffer, followed by the V1-to-V2 conversion of the resulting
entries.  No retry logic exists in the source. -/
def enum_display_grids_v1 (d : MosaicEnumDriver) :
    Except Status (List (Cell NV_MOSAIC_GRID_TOPO_V2)) × List MosaicCall :=
  match statusResult d.countStatus with
  | .error e => (.error e, [.countCall])
  | .ok _ =>
    if d.count = 0 then (.ok [], [.countCall])
    else
      match statusResult d.fillStatusV1 with
      | .error e => (.error e, [.countCall, .fillCallV1])
      | .ok _ =>
        (.ok ((fillResult d.count d.fillCountV1 d.fillDataV1).map
            (Cell.map convertGridV1toV2)),
         [.countCall, .fillCallV1])

/-- Mosaic::enum_display_grids: try V2 first; fall back to V1 exactly when V2
fails with IncompatibleStructVersion; propagate every other error unchanged. -/
def enum_display_grids (d : MosaicEnumDriver) :
    Except Status (List (Cell NV_MOSAIC_GRID_TOPO_V2)) × List MosaicCall :=
  let r2 := enum_display_grids_v2 d
  match r2.1 with
  | .ok gs => (.ok gs, r2.2)
  | .error .incompatibleStructVersion =>
    let r1 := enum_display_grids_v1 d
    (r1.1, r2.2 ++ r1.2)
  | .error e => (.error e, r2.2)

/-! ## Mosaic::set_display_grids from src/src/mosaic.rs -/

/-- The per-grid fixup set_display_grids applies before the foreign call: a
zero version is replaced with NV_MOSAIC_GRID_TOPO_VER, any other version is
left alone. -/
def set_display_grids_fixup (g : NV_MOSAIC_GRID_TOPO_V2) : NV_MOSAIC_GRID_TOPO_V2 :=
  if g.version = 0 then { g with version := NV_MOSAIC_GRID_TOPO_VER } else g

/-- The grid array set_display_grids hands to NvAPI_Mosaic_SetDisplayGrids. -/
def set_display_grids_sent (grids : List NV_MOSAIC_GRID_TOPO_V2) :
    List NV_MOSAIC_GRID_TOPO_V2 :=
  grids.map set_display_grids_fixup

/-! ## The nvapi_fn macro from sys/src/macros.rs

Each generated stub resolves its interface ID through query_interface and
either invokes the resolved pointer or returns the typed error's raw code. -/

/-- The installed driver's export table: the set of interface IDs it knows
and the function pointer (a non-null address) each known ID resolves to.
Modelled from the spec: the query-interface resolver itself is not under
src/; spec 4.2 says resolution by stable numeric ID fails closed with a typed
function-not-supported error when the ID is unknown. -/
structure InterfaceTable where
  known : List Nat
  ptrOf : Nat → Nat

/-- query_interface: resolve an interface ID against the driver's export
table.  Modelled from the spec (4.2): a known ID yields its pointer, an
unknown ID yields the typed not-supported error and no pointer. -/
def query_interface (t : InterfaceTable) (id : Nat) : Except Status Nat :=
  if id ∈ t.known then .ok (t.ptrOf id) else .error .notSupported

/-- The stub body emitted by nvapi_fn: on successful resolution the function
pointer is transmuted and invoked with the arguments; on error the stub
returns e.raw().  The boolean records whether any pointer was invoked. -/
def nvapi_fn_call (t : InterfaceTable) (id : Nat) (impl : Nat → Int) : Int × Bool :=
  match query_interface t id with
  | .ok p => (impl p, true)
  | .error e => (e.raw, false)

/-! ## The nvenum macro from sys/src/macros.rs

The generated from_raw matches the raw integer against the declared constant
values; a match transmutes the raw value into the variant with that
discriminant, anything else yields ArgumentRangeError.  A generated variant
is therefore exactly a declared discriminant, which the model carries as a
subtype of the declared value list. -/

/-- The error returned by from_raw for undeclared values (Default::default()
of the wrapper crate's ArgumentRangeError). -/
inductive ArgumentRangeError where
  | mk
  deriving DecidableEq, Repr

/-- A variant of a generated enum: one of the declared discriminants. -/
def NvEnumVariant (values : List Int) : Type := { i : Int // i ∈ values }

/-- The raw() method: a variant's discriminant. -/
def NvEnumVariant.raw {values : List Int} (v : NvEnumVariant values) : Int := v.1

/-- from_raw as generated by nvenum: a declared value transmutes to its
variant, any other value is ArgumentRangeError; the function is total. -/
def nvenum_from_raw (values : List Int) (raw : Int) :
    Except ArgumentRangeError (NvEnumVariant values) :=
  if h : raw ∈ values then .ok ⟨raw, h⟩ else .error .mk

/-- Discriminant lists of every enum declared with nvenum, in source order:
DisplaySyncState, TopologyConnector, Polarity, VideoMode, SyncSource,
DelayType, RJ45_IO from gsync.rs; MosaicTopoType, MosaicTopo, PixelShiftType
from mosaic.rs; Rotate from dispcontrol.rs; ThermalTarget, ThermalController
from gpu/thermal.rs. -/
def nvenumDeclaredValueLists : List (List Int) :=
  [ [0, 1, 2],
    [0, 1, 2, 3, 4],
    [0, 1, 2],
    [0, 1, 2, 3, 4],
    [0, 1],
    [0, 1, 2],
    [0, 1, 2],
    [0, 1, 2, 3, 4, 5],
    [0, 1, 2, 3, 4, 5, 6, 7, 8, 9, 10, 11, 12, 13, 14, 24, 25, 26, 27, 28, 29, 30, 35],
    [0, 1, 2, 4, 8],
    [0, 1, 2, 3, 4],
    [0, 1, 2, 4, 8, 9, 10, 11, 15, -1],
    [0, 1, 2, 3, 4, 5, 6, 7, 8, 9, 10, 11, -1] ]

/-! ## Helper lemmas -/

/-- Boolean success test for a result, used to state totality facts. -/
def isOkResult {ε α : Type} : Except ε α → Bool
  | .ok _ => true
  | .error _ => false

/-! ## Concrete driver runs used by counterexamples and witnesses -/

/-- A run where the fill call reports more entries (2 GPUs, 2 displays) than
the count call allocated (1 and 1): the race the spec calls a grown
topology. -/
def gsyncTopoGrowDriver : GSyncTopoDriver where
  countStatus := .ok
  countGpus := 1
  countDisplays := 1
  fillStatus := .ok
  fillGpus := 2
  fillDisplays := 2
  gpuData := fun i =>
    { NV_GSYNC_GPU.zeroed with version := NV_GSYNC_GPU_VER, hPhysicalGpu := i + 1 }
  displayData := fun i =>
    { NV_GSYNC_DISPLAY.zeroed with version := NV_GSYNC_DISPLAY_VER, displayId := i + 1 }

/-- A run where the count call reports 3 GPUs and 3 displays but the fill
call returns only 2 of each: the shrink race. -/
def gsyncTopoShrinkDriver : GSyncTopoDriver where
  countStatus := .ok
  countGpus := 3
  countDisplays := 3
  fillStatus := .ok
  fillGpus := 2
  fillDisplays := 2
  gpuData := fun i =>
    { NV_GSYNC_GPU.zeroed with version := NV_GSYNC_GPU_VER, hPhysicalGpu := i + 10 }
  displayData := fun i =>
    { NV_GSYNC_DISPLAY.zeroed with version := NV_GSYNC_DISPLAY_VER, displayId := i + 10 }

/-- A run where the count call succeeds reporting zero GPUs and zero
displays, and the subsequent fill call fails. -/
def gsyncTopoZeroFailDriver : GSyncTopoDriver where
  countStatus := .ok
  countGpus := 0
  countDisplays := 0
  fillStatus := .deviceNotFound
  fillGpus := 0
  fillDisplays := 0
  gpuData := fun _ => NV_GSYNC_GPU.zeroed
  displayData := fun _ => NV_GSYNC_DISPLAY.zeroed

/-- A run where the count call succeeds reporting zero of each and the fill
call also succeeds. -/
def gsyncTopoZeroOkDriver : GSyncTopoDriver where
  countStatus := .ok
  countGpus := 0
  countDisplays := 0
  fillStatus := .ok
  fillGpus := 0
  fillDisplays := 0
  gpuData := fun _ => NV_GSYNC_GPU.zeroed
  displayData := fun _ => NV_GSYNC_DISPLAY.zeroed

/-- An enum-sync-devices run reporting zero devices with success. -/
def enumSyncZeroDriver : EnumSyncDriver where
  status := .ok
  len := 0
  handleData := fun _ => 0

/-- A mosaic run that counts 2 grids and fills 1 (shrink) under V2. -/
def mosaicShrinkDriver : MosaicEnumDriver where
  countStatus := .ok
  count := 2
  fillStatusV2 := .ok
  fillCountV2 := 1
  fillDataV2 := fun i => { NV_MOSAIC_GRID_TOPO_V2.zeroed with
    version := NV_MOSAIC_GRID_TOPO_VER2, rows := i + 1, columns := 2 }
  fillStatusV1 := .ok
  fillCountV1 := 1
  fillDataV1 := fun _ => NV_MOSAIC_GRID_TOPO_V1.zeroed

/-- A mosaic run that counts zero grids. -/
def mosaicZeroDriver : MosaicEnumDriver where
  countStatus := .ok
  count := 0
  fillStatusV2 := .ok
  fillCountV2 := 0
  fillDataV2 := fun _ => NV_MOSAIC_GRID_TOPO_V2.zeroed
  fillStatusV1 := .ok
  fillCountV1 := 0
  fillDataV1 := fun _ => NV_MOSAIC_GRID_TOPO_V1.zeroed

/-- A mosaic run on a driver that rejects the V2 struct version but answers
the V1 attempt with one grid carrying distinctive field values. -/
def mosaicFallbackDriver : MosaicEnumDriver where
  countStatus := .ok
  count := 1
  fillStatusV2 := .incompatibleStructVersion
  fillCountV2 := 0
  fillDataV2 := fun _ => NV_MOSAIC_GRID_TOPO_V2.zeroed
  fillStatusV1 := .ok
  fillCountV1 := 1
  fillDataV1 := fun _ =>
    { NV_MOSAIC_GRID_TOPO_V1.zeroed with
        version := NV_MOSAIC_GRID_TOPO_VER1
        rows := 2
        columns := 3
        displayCount := 6
        gridFlags := 4
        displays := fun i => ⟨100 + i.val, 1, -2, 1, 5⟩
        displaySettings := ⟨NV_MOSAIC_GRID_TOPO_VER1 % 2 ^ 16, 1920, 1080, 32, 60⟩ }

/-- A status-parameters run on a driver that rejects the struct version. -/
def statusParamsIncompatDriver : StatusParamsDriver where
  status := .incompatibleStructVersion
  outParams := NV_GSYNC_STATUS_PARAMS_V1.zeroed

/-- A topology display entry the driver reports as masterable. -/
def topologyDisplayMasterable : NV_GSYNC_DISPLAY :=
  { NV_GSYNC_DISPLAY.zeroed with displayId := 7, isMasterable := 1, syncState := 2 }

end NvApi

/-- When the driver-reported fill count does not exceed the allocated
capacity, the buffer after set_len is exactly the driver-written prefix. -/
theorem NvApi.fillResult_of_le {α : Type} (cap fillN : Nat) (data : Nat → α)
    (h : fillN ≤ cap) :
    NvApi.fillResult cap fillN data
      = (List.range fillN).map fun i => NvApi.Cell.valid (data i) := by
  unfold NvApi.fillResult
  refine List.map_congr_left fun i hi => ?_
  have hc : i < cap := lt_of_lt_of_le (List.mem_range.mp hi) h
  simp [hc]

/-- C1: for every struct kind and version pair declared with the nvversion
macro, the packed tag equals size bitor version shifted left 16, the size
encoded in the tag's low 16 bits equals the in-memory size of that struct
variant, and the hand-written sizes NV_GSYNC_CAPABILITIES_V1_SIZE and
NV_GSYNC_CAPABILITIES_V2_SIZE are 16 and 20. -/
theorem C1_nvversion_tag_size_correct :
    (∀ d ∈ NvApi.nvversionDecls,
        d.tag = NvApi.nvversion d.declaredSize d.versionNumber ∧
        NvApi.tagSize d.tag = d.memSize ∧
        NvApi.tagVer d.tag = d.versionNumber) ∧
    NvApi.NV_GSYNC_CAPABILITIES_V1_SIZE = 16 ∧
    NvApi.NV_GSYNC_CAPABILITIES_V2_SIZE = 20 := by
  constructor
  · decide
  · constructor <;> rfl

/-- Witness for C1 at the first declared pair, NV_GSYNC_CAPABILITIES_VER_1. -/
theorem C1_nvversion_tag_size_correct_witness :
    (NvApi.VersionDecl.mk NvApi.NV_GSYNC_CAPABILITIES_V1_SIZE 1
        NvApi.NV_GSYNC_CAPABILITIES_V1.fields) ∈ NvApi.nvversionDecls ∧
    NvApi.tagSize (NvApi.VersionDecl.mk NvApi.NV_GSYNC_CAPABILITIES_V1_SIZE 1
        NvApi.NV_GSYNC_CAPABILITIES_V1.fields).tag
      = (NvApi.VersionDecl.mk NvApi.NV_GSYNC_CAPABILITIES_V1_SIZE 1
          NvApi.NV_GSYNC_CAPABILITIES_V1.fields).memSize :=
  ⟨by decide,
   (C1_nvversion_tag_size_correct.1 _ (by decide)).2.1⟩

/-- C2 counterexample: adjust_sync_delay passes the caller's NV_GSYNC_DELAY
to NvAPI_GSync_AdjustSyncDelay unchanged, so for a zeroed delay the struct at
the moment of the foreign call has version 0, not the declared tag
NV_GSYNC_DELAY_VER.  This falsifies the claim that every façade operation
tags every versioned struct it sends, adjust_sync_delay included. -/
theorem C2_counterexample_adjust_delay_untagged :
    (NvApi.adjust_sync_delay ⟨NvApi.Status.ok, 0⟩ NvApi.NV_GSYNC_DELAY.zeroed).2.version = 0 ∧
    NvApi.NV_GSYNC_DELAY_VER ≠ 0 := by
  exact ⟨rfl, by decide⟩

/-- C2 amended: get_topology pre-tags every element of both arrays with the
declared tags before the fill call; set_sync_state_settings sends entries
whose version is always the display tag; set_display_grids replaces only a
zero version with the grid tag and leaves a nonzero caller version alone;
adjust_sync_delay passes the caller's NV_GSYNC_DELAY through without setting
its version. -/
theorem C2_version_tagging_amended :
    (∀ n : Nat, ∀ g ∈ NvApi.gsyncGpuBuffer n, g.version = NvApi.NV_GSYNC_GPU_VER) ∧
    (∀ n : Nat, ∀ e ∈ NvApi.gsyncDisplayBuffer n, e.version = NvApi.NV_GSYNC_DISPLAY_VER) ∧
    (∀ ds, ∀ e ∈ NvApi.set_sync_state_settings_sent ds,
        e.version = NvApi.NV_GSYNC_DISPLAY_VER) ∧
    (∀ g, (NvApi.set_display_grids_fixup g).version =
        if g.version = 0 then NvApi.NV_MOSAIC_GRID_TOPO_VER else g.version) ∧
    (∀ delay, NvApi.adjust_sync_delay_sent delay = delay) := by
  refine ⟨?_, ?_, ?_, ?_, fun _ => rfl⟩
  · intro n g hg
    rw [List.eq_of_mem_replicate hg]
    rfl
  · intro n e he
    rw [List.eq_of_mem_replicate he]
    rfl
  · intro ds e he
    simp only [NvApi.set_sync_state_settings_sent, List.map_map, List.mem_map] at he
    obtain ⟨p, _, rfl⟩ := he
    simp [NvApi.set_sync_state_settings_raw_fixup, NvApi.set_sync_state_settings_entry]
  · intro g
    unfold NvApi.set_display_grids_fixup
    split <;> simp_all

/-- Witness for C2 amended at a one-element GPU buffer. -/
theorem C2_version_tagging_amended_witness :
    NvApi.gsyncGpuPretag ∈ NvApi.gsyncGpuBuffer 1 ∧
    NvApi.gsyncGpuPretag.version = NvApi.NV_GSYNC_GPU_VER :=
  ⟨by decide, C2_version_tagging_amended.1 1 NvApi.gsyncGpuPretag (by decide)⟩

/-- C3, evaluated at the failing input: when the count call reports 1 GPU and
1 display but the fill call reports 2 of each, get_topology performs no
retry from the count step (the trace holds exactly one count call and one
fill call), surfaces no topology-changed error (the result is ok), and
returns length-2 vectors whose second element lies beyond the 1-element
allocations: Vec set_len is called past the buffer, an out-of-bounds
exposure instead of the retry the spec requires. -/
theorem C3_no_retry_out_of_bounds_on_growth :
    NvApi.get_topology NvApi.gsyncTopoGrowDriver =
      (.ok ([.valid (NvApi.gsyncTopoGrowDriver.gpuData 0), .oob],
            [.valid (NvApi.gsyncTopoGrowDriver.displayData 0), .oob]),
       [.countCall, .fillCall]) ∧
    NvApi.gsyncTopoGrowDriver.countGpus = 1 ∧
    NvApi.gsyncTopoGrowDriver.fillGpus = 2 := by
  exact ⟨rfl, rfl, rfl⟩

/-- C4: whenever the fill call's reported counts are at most the capacities
allocated from the count call and both calls succeed, the returned sequences
are exactly the driver-written prefixes: their lengths equal the second
call's counts and every element is a value the driver wrote inside the
allocation, with nothing beyond that count read or exposed.  This holds for
both get_topology and enum_display_grids_v2. -/
theorem C4_fill_count_exact (d : NvApi.GSyncTopoDriver) (m : NvApi.MosaicEnumDriver)
    (hg : d.fillGpus ≤ d.countGpus) (hd : d.fillDisplays ≤ d.countDisplays)
    (h1 : d.countStatus = .ok) (h2 : d.fillStatus = .ok)
    (hm1 : m.countStatus = .ok) (hm2 : m.fillStatusV2 = .ok)
    (hmc : m.count ≠ 0) (hmf : m.fillCountV2 ≤ m.count) :
    (NvApi.get_topology d).1 =
      .ok ((List.range d.fillGpus).map (fun i => .valid (d.gpuData i)),
           (List.range d.fillDisplays).map (fun i => .valid (d.displayData i))) ∧
    (NvApi.enum_display_grids_v2 m).1 =
      .ok ((List.range m.fillCountV2).map (fun i => .valid (m.fillDataV2 i))) := by
  constructor
  · unfold NvApi.get_topology
    rw [h1, h2]
    simp [NvApi.statusResult, NvApi.fillResult_of_le _ _ _ hg,
      NvApi.fillResult_of_le _ _ _ hd]
  · unfold NvApi.enum_display_grids_v2
    rw [hm1, hm2]
    simp [NvApi.statusResult, hmc, NvApi.fillResult_of_le _ _ _ hmf]

/-- Witness for C4 at the shrink drivers: counts 3 and 2, counts 2 and 1. -/
theorem C4_fill_count_exact_witness :
    NvApi.gsyncTopoShrinkDriver.fillGpus ≤ NvApi.gsyncTopoShrinkDriver.countGpus ∧
    NvApi.mosaicShrinkDriver.fillCountV2 ≤ NvApi.mosaicShrinkDriver.count ∧
    (NvApi.get_topology NvApi.gsyncTopoShrinkDriver).1 =
      .ok ((List.range NvApi.gsyncTopoShrinkDriver.fillGpus).map
             (fun i => .valid (NvApi.gsyncTopoShrinkDriver.gpuData i)),
           (List.range NvApi.gsyncTopoShrinkDriver.fillDisplays).map
             (fun i => .valid (NvApi.gsyncTopoShrinkDriver.displayData i))) ∧
    (NvApi.enum_display_grids_v2 NvApi.mosaicShrinkDriver).1 =
      .ok ((List.range NvApi.mosaicShrinkDriver.fillCountV2).map
             (fun i => .valid (NvApi.mosaicShrinkDriver.fillDataV2 i))) := by
  refine ⟨by decide, by decide, ?_, ?_⟩
  · exact (C4_fill_count_exact NvApi.gsyncTopoShrinkDriver NvApi.mosaicShrinkDriver
      (by decide) (by decide) rfl rfl rfl rfl (by decide) (by decide)).1
  · exact (C4_fill_count_exact NvApi.gsyncTopoShrinkDriver NvApi.mosaicShrinkDriver
      (by decide) (by decide) rfl rfl rfl rfl (by decide) (by decide)).2

/-- C5 counterexample: on a driver that answers with the
incompatible-struct-version error, get_status_parameters surfaces the error
after a single foreign call carrying the V1 tag; no second call with the
alternate V2 tag is made, falsifying the claim that it falls back between
versions before surfacing the error. -/
theorem C5_counterexample_status_params_no_fallback :
    NvApi.get_status_parameters NvApi.statusParamsIncompatDriver =
      (.error .incompatibleStructVersion, [NvApi.NV_GSYNC_STATUS_PARAMS_VER_1]) ∧
    NvApi.NV_GSYNC_STATUS_PARAMS_VER_1 ≠ NvApi.NV_GSYNC_STATUS_PARAMS_VER_2 := by
  exact ⟨rfl, by decide⟩

/-- C5 amended: Mosaic enum_display_grids retries with V1 exactly when the
V2 attempt fails with IncompatibleStructVersion and propagates every other
error unchanged; GSyncDevice get_status_parameters performs no version
fallback: its single call deliberately carries the conservative V1 tag and
any error status, IncompatibleStructVersion included, is surfaced unchanged. -/
theorem C5_fallback_policy_amended (d : NvApi.MosaicEnumDriver)
    (p : NvApi.StatusParamsDriver) :
    ((NvApi.enum_display_grids_v2 d).1 = .error .incompatibleStructVersion →
        (NvApi.enum_display_grids d).1 = (NvApi.enum_display_grids_v1 d).1) ∧
    (∀ gs, (NvApi.enum_display_grids_v2 d).1 = .ok gs →
        (NvApi.enum_display_grids d).1 = .ok gs) ∧
    (∀ e, e ≠ NvApi.Status.incompatibleStructVersion →
        (NvApi.enum_display_grids_v2 d).1 = .error e →
        (NvApi.enum_display_grids d).1 = .error e) ∧
    (NvApi.get_status_parameters p).2 = [NvApi.NV_GSYNC_STATUS_PARAMS_VER_1] ∧
    (p.status ≠ .ok → (NvApi.get_status_parameters p).1 = .error p.status) := by
  refine ⟨fun h => ?_, fun gs h => ?_, fun e he h => ?_, rfl, fun hp => ?_⟩
  · simp [NvApi.enum_display_grids, h]
  · simp [NvApi.enum_display_grids, h]
  · cases e <;> simp_all [NvApi.enum_display_grids]
  · simp [NvApi.get_status_parameters, NvApi.statusResult, hp]

/-- Witness for C5 amended: the fallback driver rejects V2 and the error
driver rejects the status-parameters call. -/
theorem C5_fallback_policy_amended_witness :
    (NvApi.enum_display_grids_v2 NvApi.mosaicFallbackDriver).1 =
      .error .incompatibleStructVersion ∧
    (NvApi.enum_display_grids NvApi.mosaicFallbackDriver).1 =
      (NvApi.enum_display_grids_v1 NvApi.mosaicFallbackDriver).1 ∧
    NvApi.statusParamsIncompatDriver.status ≠ .ok ∧
    (NvApi.get_status_parameters NvApi.statusParamsIncompatDriver).1 =
      .error NvApi.statusParamsIncompatDriver.status := by
  refine ⟨rfl, ?_, by decide, ?_⟩
  · exact (C5_fallback_policy_amended NvApi.mosaicFallbackDriver
      NvApi.statusParamsIncompatDriver).1 rfl
  · exact (C5_fallback_policy_amended NvApi.mosaicFallbackDriver
      NvApi.statusParamsIncompatDriver).2.2.2.2 (by decide)

/-- C6 counterexample: for a topology display the driver reports as
masterable, the entry set_sync_state_settings_from_topology builds carries
isMasterable 0, not the entity's current driver-reported value 1, falsifying
the claim that unspecified fields default to the current state. -/
theorem C6_counterexample_masterable_not_preserved :
    NvApi.topologyDisplayMasterable.isMasterable = 1 ∧
    (NvApi.set_sync_state_settings_from_topology_entry
        NvApi.topologyDisplayMasterable).isMasterable = 0 := by
  exact ⟨rfl, rfl⟩

/-- C6 amended: both convenience setters build each outbound entry from
zeroed(), assigning only version, displayId and syncState; every field the
caller did not specify, isMasterable included, is left at zero rather than
defaulted to the entity's current driver-reported state. -/
theorem C6_unspecified_fields_left_zero :
    (∀ (id : Nat) (st : NvApi.DisplaySyncState),
        (NvApi.set_sync_state_settings_entry id st).version = NvApi.NV_GSYNC_DISPLAY_VER ∧
        (NvApi.set_sync_state_settings_entry id st).displayId = id ∧
        (NvApi.set_sync_state_settings_entry id st).syncState = st.raw ∧
        (NvApi.set_sync_state_settings_entry id st).isMasterable = 0) ∧
    (∀ d : NvApi.NV_GSYNC_DISPLAY,
        (NvApi.set_sync_state_settings_from_topology_entry d).version =
          NvApi.NV_GSYNC_DISPLAY_VER ∧
        (NvApi.set_sync_state_settings_from_topology_entry d).displayId = d.displayId ∧
        (NvApi.set_sync_state_settings_from_topology_entry d).syncState = d.syncState ∧
        (NvApi.set_sync_state_settings_from_topology_entry d).isMasterable = 0) := by
  exact ⟨fun id st => ⟨rfl, rfl, rfl, rfl⟩, fun d => ⟨rfl, rfl, rfl, rfl⟩⟩

/-- C7 counterexample: get_topology is an enumeration operation, yet when the
count phase succeeds reporting zero GPUs and zero displays it still performs
the fill call and surfaces that call's failure instead of returning an empty
result with success. -/
theorem C7_counterexample_topology_zero_still_fills :
    NvApi.gsyncTopoZeroFailDriver.countStatus = .ok ∧
    NvApi.gsyncTopoZeroFailDriver.countGpus = 0 ∧
    NvApi.gsyncTopoZeroFailDriver.countDisplays = 0 ∧
    NvApi.get_topology NvApi.gsyncTopoZeroFailDriver =
      (.error .deviceNotFound, [.countCall, .fillCall]) := by
  exact ⟨rfl, rfl, rfl, rfl⟩

/-- C7 amended: enum_display_grids (both helpers and the public entry)
returns ok of the empty vector with no fill call when the count phase
reports zero; enum_sync_devices returns ok of the empty vector when its
single call reports zero devices; get_topology does not special-case zero:
it still performs the fill call with the zero-capacity buffers and returns
the empty pair only when that call also succeeds. -/
theorem C7_zero_count_behaviour_amended (m : NvApi.MosaicEnumDriver)
    (e : NvApi.EnumSyncDriver) (d : NvApi.GSyncTopoDriver) :
    (m.countStatus = .ok → m.count = 0 →
        NvApi.enum_display_grids_v2 m = (.ok [], [.countCall]) ∧
        NvApi.enum_display_grids_v1 m = (.ok [], [.countCall]) ∧
        NvApi.enum_display_grids m = (.ok [], [.countCall])) ∧
    (e.status = .ok → e.len = 0 → NvApi.enum_sync_devices e = some (.ok [])) ∧
    (d.countStatus = .ok → d.countGpus = 0 → d.countDisplays = 0 →
        d.fillStatus = .ok → d.fillGpus = 0 → d.fillDisplays = 0 →
        NvApi.get_topology d = (.ok ([], []), [.countCall, .fillCall])) := by
  refine ⟨fun h1 h0 => ?_, fun h1 h0 => ?_, fun h1 hg hd h2 hfg hfd => ?_⟩
  · refine ⟨?_, ?_, ?_⟩
    · simp [NvApi.enum_display_grids_v2, h1, h0, NvApi.statusResult]
    · simp [NvApi.enum_display_grids_v1, h1, h0, NvApi.statusResult]
    · simp [NvApi.enum_display_grids, NvApi.enum_display_grids_v2, h1, h0,
        NvApi.statusResult]
  · simp [NvApi.enum_sync_devices, h1, h0, NvApi.statusResult,
      NvApi.NVAPI_MAX_GSYNC_DEVICES]
  · simp [NvApi.get_topology, h1, h2, hg, hd, hfg, hfd, NvApi.statusResult,
      NvApi.fillResult]

/-- Witness for C7 amended at the zero-count drivers. -/
theorem C7_zero_count_behaviour_amended_witness :
    NvApi.mosaicZeroDriver.count = 0 ∧
    NvApi.enum_display_grids NvApi.mosaicZeroDriver = (.ok [], [.countCall]) ∧
    NvApi.enum_sync_devices NvApi.enumSyncZeroDriver = some (.ok []) ∧
    NvApi.get_topology NvApi.gsyncTopoZeroOkDriver =
      (.ok ([], []), [.countCall, .fillCall]) := by
  refine ⟨rfl, ?_, ?_, ?_⟩
  · exact ((C7_zero_count_behaviour_amended NvApi.mosaicZeroDriver
      NvApi.enumSyncZeroDriver NvApi.gsyncTopoZeroOkDriver).1 rfl rfl).2.2
  · exact (C7_zero_count_behaviour_amended NvApi.mosaicZeroDriver
      NvApi.enumSyncZeroDriver NvApi.gsyncTopoZeroOkDriver).2.1 rfl rfl
  · exact (C7_zero_count_behaviour_amended NvApi.mosaicZeroDriver
      NvApi.enumSyncZeroDriver NvApi.gsyncTopoZeroOkDriver).2.2 rfl rfl rfl rfl rfl rfl

/-- C8: for every stub generated by nvapi_fn, when the interface ID is
unknown to the installed driver, the stub returns the raw code of the typed
not-supported error produced by the resolver and invokes no function
pointer. -/
theorem C8_resolution_fails_closed (t : NvApi.InterfaceTable) (id : Nat)
    (impl : Nat → Int) (h : id ∉ t.known) :
    NvApi.nvapi_fn_call t id impl = (NvApi.Status.notSupported.raw, false) := by
  simp [NvApi.nvapi_fn_call, NvApi.query_interface, h]

/-- Witness for C8 at a two-entry export table and an unknown ID. -/
theorem C8_resolution_fails_closed_witness :
    (7 : Nat) ∉ (NvApi.InterfaceTable.mk [1, 2] (fun i => i + 100)).known ∧
    NvApi.nvapi_fn_call (NvApi.InterfaceTable.mk [1, 2] (fun i => i + 100)) 7
        (fun _ => 0) = (NvApi.Status.notSupported.raw, false) :=
  ⟨by decide,
   C8_resolution_fails_closed (NvApi.InterfaceTable.mk [1, 2] (fun i => i + 100)) 7
     (fun _ => 0) (by decide)⟩

/-- C9: from_raw as generated by nvenum is total; it succeeds exactly on the
declared discriminants, a success returns the variant whose discriminant is
the raw value, every declared variant round-trips through raw, and every
discriminant list declared in the sources is duplicate-free. -/
theorem C9_nvenum_from_raw_correct :
    (∀ (values : List Int) (raw : Int),
        (NvApi.isOkResult (NvApi.nvenum_from_raw values raw) = true ↔ raw ∈ values)) ∧
    (∀ (values : List Int) (v : NvApi.NvEnumVariant values),
        NvApi.nvenum_from_raw values v.raw = .ok v) ∧
    (∀ (values : List Int) (raw : Int) (v : NvApi.NvEnumVariant values),
        NvApi.nvenum_from_raw values raw = .ok v → v.raw = raw) ∧
    (∀ L ∈ NvApi.nvenumDeclaredValueLists, L.Nodup) := by
  refine ⟨fun values raw => ?_, fun values v => ?_, fun values raw v h => ?_, by decide⟩
  · by_cases h : raw ∈ values <;>
      simp [NvApi.nvenum_from_raw, h, NvApi.isOkResult]
  · obtain ⟨i, hi⟩ := v
    simp [NvApi.nvenum_from_raw, NvApi.NvEnumVariant.raw, hi]
  · unfold NvApi.nvenum_from_raw at h
    split at h
    · cases h
      rfl
    · exact absurd h (by simp)

/-- Witness for C9 at the DisplaySyncState discriminants 0, 1, 2. -/
theorem C9_nvenum_from_raw_correct_witness :
    (2 : Int) ∈ ([0, 1, 2] : List Int) ∧
    NvApi.isOkResult (NvApi.nvenum_from_raw [0, 1, 2] 2) = true :=
  ⟨by decide, (C9_nvenum_from_raw_correct.1 [0, 1, 2] 2).mpr (by decide)⟩

/-- C10: on the V1 fallback path, when the driver rejects V2 with the
incompatible-struct-version error and answers the V1 attempt with a fill
count within capacity, enum_display_grids returns exactly the V1-to-V2
upgrades of the driver-filled V1 grids; and the upgrade sets the grid
version to NV_MOSAIC_GRID_TOPO_VER2, copies rows, columns, displayCount,
gridFlags and displaySettings unchanged, and for each of the 64 display
slots copies displayId, overlapX, overlapY, rotation and cloneGroup while
setting pixelShiftType to NoPixelShift and the display version to 2. -/
theorem C10_v1_fallback_faithful_upgrade (d : NvApi.MosaicEnumDriver)
    (h1 : d.countStatus = .ok) (h0 : d.count ≠ 0)
    (hv2 : d.fillStatusV2 = .incompatibleStructVersion)
    (hv1 : d.fillStatusV1 = .ok)
    (hle : d.fillCountV1 ≤ d.count) :
    (NvApi.enum_display_grids d).1 =
      .ok ((List.range d.fillCountV1).map fun i =>
        .valid (NvApi.convertGridV1toV2 (d.fillDataV1 i))) ∧
    (∀ g : NvApi.NV_MOSAIC_GRID_TOPO_V1,
        (NvApi.convertGridV1toV2 g).version = NvApi.NV_MOSAIC_GRID_TOPO_VER2 ∧
        (NvApi.convertGridV1toV2 g).rows = g.rows ∧
        (NvApi.convertGridV1toV2 g).columns = g.columns ∧
        (NvApi.convertGridV1toV2 g).displayCount = g.displayCount ∧
        (NvApi.convertGridV1toV2 g).gridFlags = g.gridFlags ∧
        (NvApi.convertGridV1toV2 g).displaySettings = g.displaySettings ∧
        ∀ i : Fin NvApi.NV_MOSAIC_MAX_DISPLAYS,
          ((NvApi.convertGridV1toV2 g).displays i).displayId = (g.displays i).displayId ∧
          ((NvApi.convertGridV1toV2 g).displays i).overlapX = (g.displays i).overlapX ∧
          ((NvApi.convertGridV1toV2 g).displays i).overlapY = (g.displays i).overlapY ∧
          ((NvApi.convertGridV1toV2 g).displays i).rotation = (g.displays i).rotation ∧
          ((NvApi.convertGridV1toV2 g).displays i).cloneGroup = (g.displays i).cloneGroup ∧
          ((NvApi.convertGridV1toV2 g).displays i).pixelShiftType =
            NvApi.PixelShiftType.NoPixelShift.raw ∧
          ((NvApi.convertGridV1toV2 g).displays i).version = 2) := by
  constructor
  · simp [NvApi.enum_display_grids, NvApi.enum_display_grids_v2,
      NvApi.enum_display_grids_v1, h1, h0, hv2, hv1, NvApi.statusResult,
      NvApi.fillResult_of_le _ _ _ hle, List.map_map, Function.comp_def,
      NvApi.Cell.map]
  · exact fun g => ⟨rfl, rfl, rfl, rfl, rfl, rfl,
      fun i => ⟨rfl, rfl, rfl, rfl, rfl, rfl, rfl⟩⟩

/-- Witness for C10 at the fallback driver with one distinctive V1 grid. -/
theorem C10_v1_fallback_faithful_upgrade_witness :
    NvApi.mosaicFallbackDriver.fillStatusV2 = .incompatibleStructVersion ∧
    NvApi.mosaicFallbackDriver.fillCountV1 ≤ NvApi.mosaicFallbackDriver.count ∧
    (NvApi.enum_display_grids NvApi.mosaicFallbackDriver).1 =
      .ok ((List.range NvApi.mosaicFallbackDriver.fillCountV1).map fun i =>
        .valid (NvApi.convertGridV1toV2 (NvApi.mosaicFallbackDriver.fillDataV1 i))) :=
  ⟨rfl, by decide,
   (C10_v1_fallback_faithful_upgrade NvApi.mosaicFallbackDriver rfl (by decide)
     rfl rfl (by decide)).1⟩
